import Mathlib

/-!
Verification model of the emulator lifecycle and backdoor-control subsystem
of the EPICS IOC test framework.

The definitions below are shallow embeddings of the Python code in
`src/utils/emulator_launcher.py`, `src/utils/lewis_launcher.py` and
`src/utils/device_launcher.py`.  Time is discretised: one tick is one
`sleep(0.5)` poll interval of the polling loop, and a timeout is given as a
number of such ticks.  Exceptions are represented by explicit result
constructors.  Python dictionaries are represented as association lists with
insertion order preserved (replacing the value in place on key collision,
exactly as a Python dict does).
-/

/-! ## EmulatorRegister (src/utils/emulator_launcher.py, class EmulatorRegister)

`RunningEmulators` is a dict from emulator name to the launcher instance.
Launcher instances are represented by `Nat` tokens, which is enough to
observe identity of entries.  -/

/-- A Python dict from emulator id to launcher instance, as an ordered
association list.  -/
abbrev Registry := List (String × Nat)

/-- Dict lookup: `RunningEmulators.get(name)` returns the value stored under
the key, or `None` when absent.  -/
def registryGet (reg : Registry) (name : String) : Option Nat :=
  match reg with
  | [] => none
  | (k, v) :: rest => if k = name then some v else registryGet rest name

/-- EmulatorRegister.add_emulator: `cls.RunningEmulators[name] = emulator`.
Python dict assignment replaces the value in place when the key is present
and appends a new binding otherwise.  -/
def add_emulator (reg : Registry) (name : String) (emulator : Nat) : Registry :=
  match reg with
  | [] => [(name, emulator)]
  | (k, v) :: rest =>
    if k = name then (k, emulator) :: rest else (k, v) :: add_emulator rest name emulator

/-- EmulatorRegister.remove_emulator: `del cls.RunningEmulators[name]`,
removing the binding for the key.  -/
def remove_emulator (reg : Registry) (name : String) : Registry :=
  match reg with
  | [] => []
  | (k, v) :: rest => if k = name then rest else (k, v) :: remove_emulator rest name

/-- EmulatorLauncher.__enter__ registry effect (emulator_launcher.py line 102):
`EmulatorRegister.add_emulator(self._emulator_id, self)`.  -/
def emulatorLauncher_enter (reg : Registry) (emulator_id : String) (launcher : Nat) : Registry :=
  add_emulator reg emulator_id launcher

/-- EmulatorLauncher.__exit__ registry effect (emulator_launcher.py line 112):
`EmulatorRegister.remove_emulator(self._emulator_id)`.  -/
def emulatorLauncher_exit (reg : Registry) (emulator_id : String) : Registry :=
  remove_emulator reg emulator_id

/-- LewisLauncher.__enter__ registry effect (lewis_launcher.py line 137):
`LewisRegister.add_emulator(self._emulator_id, self)`.  `LewisRegister`
stores its entries in a dict of the same shape as `EmulatorRegister`.  -/
def lewisLauncher_enter (reg : Registry) (emulator_id : String) (launcher : Nat) : Registry :=
  add_emulator reg emulator_id launcher

/-- LewisLauncher.__exit__ registry effect (lewis_launcher.py lines 140-141):
the body is only `self._close()`; nothing is removed from the register.  -/
def lewisLauncher_exit (reg : Registry) : Registry :=
  reg

/-! ## The polling primitive `_wait_for_emulator_lambda`
(emulator_launcher.py lines 412-444; the same loop appears in
lewis_launcher.py lines 370-396).

The lambda passed to the loop is evaluated once per tick.  Each evaluation
either returns a value (`None` for success or a failure-message string), or
raises.  The `except` clause of the loop catches only
`UnableToConnectToEmulatorException`; any other exception propagates out of
the whole call at once, and so does any exception raised by the final
evaluation after the loop.  -/

/-- Outcome of one evaluation of the lambda handed to the polling loop. -/
inductive LambdaResult : Type
  /-- The lambda returned: `none` models Python None (success), `some s`
  models a failure-message string.  -/
  | value (v : Option String) : LambdaResult
  /-- The lambda raised UnableToConnectToEmulatorException.  -/
  | connErr : LambdaResult
  /-- The lambda raised some other exception, carried as text.  -/
  | otherErr (e : String) : LambdaResult
deriving DecidableEq

/-- Outcome of a whole `_wait_for_emulator_lambda` call.  -/
inductive WaitResult : Type
  /-- The call returned the given lambda value.  -/
  | ret (v : Option String) : WaitResult
  /-- The call raised UnableToConnectToEmulatorException.  -/
  | raisesConnErr : WaitResult
  /-- The call raised some other exception.  -/
  | raisesOther (e : String) : WaitResult
deriving DecidableEq

/-- Result of the single evaluation `return wait_for_lambda()` after the
loop: a returned value is returned, an exception propagates raw.  -/
def finalEval : LambdaResult → WaitResult
  | .value v => .ret v
  | .connErr => .raisesConnErr
  | .otherErr e => .raisesOther e

/-- Whether an evaluation outcome lets the `while` loop proceed to the next
iteration: a returned non-None value does (the message is discarded and the
loop sleeps and retries), and so does UnableToConnectToEmulatorException
(caught by the `except` clause); a returned None exits with success and any
other exception propagates.  -/
def loopContinues : LambdaResult → Bool
  | .value none => false
  | .value (some _) => true
  | .connErr => true
  | .otherErr _ => false

/-- The `while current_time - start_time < timeout` loop body, evaluated at
tick `tick` with `fuel` loop iterations left before the elapsed time reaches
the timeout.  When the fuel runs out the loop falls through to the final
`return wait_for_lambda()` at the current tick.  -/
def waitLoop (wait_for_lambda : Nat → LambdaResult) (tick fuel : Nat) : WaitResult :=
  match fuel with
  | 0 => finalEval (wait_for_lambda tick)
  | Nat.succ fuel =>
    match wait_for_lambda tick with
    | .value none => .ret none
    | .value (some _) => waitLoop wait_for_lambda (tick + 1) fuel
    | .connErr => waitLoop wait_for_lambda (tick + 1) fuel
    | .otherErr e => .raisesOther e

/-- `_wait_for_emulator_lambda(wait_for_lambda, timeout)`: the lambda is a
function of the tick at which it is evaluated; `timeoutTicks` is the timeout
expressed in 0.5-second poll intervals.  -/
def wait_for_emulator_lambda (wait_for_lambda : Nat → LambdaResult) (timeoutTicks : Nat) :
    WaitResult :=
  waitLoop wait_for_lambda 0 timeoutTicks

/-- Number of evaluations of the lambda performed by `waitLoop` starting at
`tick` with `fuel` iterations left, counting from tick 0 (so the result is
the index one past the last evaluated tick).  -/
def waitLoopEvals (wait_for_lambda : Nat → LambdaResult) (tick fuel : Nat) : Nat :=
  match fuel with
  | 0 => tick + 1
  | Nat.succ fuel =>
    match wait_for_lambda tick with
    | .value none => tick + 1
    | .value (some _) => waitLoopEvals wait_for_lambda (tick + 1) fuel
    | .connErr => waitLoopEvals wait_for_lambda (tick + 1) fuel
    | .otherErr _ => tick + 1

/-- Total number of evaluations of the lambda performed by one
`_wait_for_emulator_lambda` call.  -/
def wait_evalCount (wait_for_lambda : Nat → LambdaResult) (timeoutTicks : Nat) : Nat :=
  waitLoopEvals wait_for_lambda 0 timeoutTicks

/-! ## The polling assertion
`assert_that_emulator_value_causes_func_to_return_true`
(emulator_launcher.py lines 302-355).

Its inner `wrapper` reads the emulator property through
`backdoor_get_from_device` (which may raise
UnableToConnectToEmulatorException — that exception escapes `wrapper`
uncaught and is handled by the polling loop), then evaluates the user
predicate `func` on the value inside a `try` that catches every exception
and turns it into a message string; a predicate returning True yields None
and a predicate returning False yields the failure message.  -/

/-- Outcome of one `backdoor_get_from_device` call at a given tick.  -/
inductive GetResult : Type
  /-- The backdoor returned this value string.  -/
  | val (s : String) : GetResult
  /-- The backdoor raised UnableToConnectToEmulatorException.  -/
  | connErr : GetResult
  /-- The backdoor raised some other exception, carried as text.  -/
  | otherErr (e : String) : GetResult
deriving DecidableEq

/-- Outcome of evaluating the user predicate `func` on a value: either it
returns a boolean, or it raises an exception with a class name and an
optional `message` attribute.  -/
inductive FuncResult : Type
  /-- The predicate returned this boolean.  -/
  | ret (b : Bool) : FuncResult
  /-- The predicate raised: exception class name and optional `e.message`. -/
  | exn (className : String) (message : Option String) : FuncResult
deriving DecidableEq

/-- The `e.message if it exists else "<no message>"` dance of the wrapper
(emulator_launcher.py lines 327-330).  -/
def exception_message : Option String → String
  | some m => m
  | none => "<no message>"

/-- Modelled from the spec: `utils/formatters.py` (the `format_value` helper
imported by emulator_launcher.py) is not among the provided sources.  Per
the spec, failure diagnostics simply include the last-seen value, so the
value is rendered verbatim.  No claim depends on the rendering itself.  -/
def format_value (value : String) : String :=
  value

/-- Modelled from the spec: `os.linesep`, the platform line separator used
between the caller message and the final-value line.  No claim depends on
its exact text.  -/
def linesep : String :=
  "\n"

/-- The message built by the wrapper when the predicate raises
(emulator_launcher.py lines 332-337).  -/
def predicate_exception_message (funcName value className : String)
    (message : Option String) : String :=
  "Exception was thrown while evaluating function \x27" ++ funcName ++
    "\x27 on emulator property " ++ format_value value ++ ". Exception was: " ++
    className ++ " " ++ exception_message message

/-- The message built by the wrapper when the predicate returns False
(emulator_launcher.py lines 341-345).  -/
def predicate_false_message (msg value : String) : String :=
  msg ++ linesep ++ "Final emulator property value was " ++ format_value value

/-- The `wrapper(msg)` closure of
`assert_that_emulator_value_causes_func_to_return_true`
(emulator_launcher.py lines 322-345), evaluated against one
`backdoor_get_from_device` outcome.  -/
def wrapper (func : String → FuncResult) (funcName : String) (msg : String)
    (backdoor_get : GetResult) : LambdaResult :=
  match backdoor_get with
  | .connErr => .connErr
  | .otherErr e => .otherErr e
  | .val value =>
    match func value with
    | .exn className message =>
      .value (some (predicate_exception_message funcName value className message))
    | .ret true => .value none
    | .ret false => .value (some (predicate_false_message msg value))

/-- The default `msg` of
`assert_that_emulator_value_causes_func_to_return_true`
(emulator_launcher.py lines 347-350).  -/
def default_assert_true_msg (funcName emulator_property : String) : String :=
  "Expected function \x27" ++ funcName ++ "\x27 to evaluate to True " ++
    "when reading emulator property \x27" ++ emulator_property ++ "\x27."

/-- Outcome of a whole assertion call.  -/
inductive AssertOutcome : Type
  /-- The assertion returned normally (the wait returned None).  -/
  | passed : AssertOutcome
  /-- `raise AssertionError(err)` with the given message.  -/
  | assertionError (message : String) : AssertOutcome
  /-- UnableToConnectToEmulatorException escaped the wait.  -/
  | connExn : AssertOutcome
  /-- Some other exception escaped the wait.  -/
  | otherExn (e : String) : AssertOutcome
deriving DecidableEq

/-- `assert_that_emulator_value_causes_func_to_return_true`
(emulator_launcher.py lines 302-355): builds the message, runs the polling
primitive on the wrapper, and raises AssertionError on a non-None result.
`backdoor_get` gives the outcome of the backdoor read at each tick.  -/
def assert_that_emulator_value_causes_func_to_return_true
    (backdoor_get : Nat → GetResult) (func : String → FuncResult)
    (funcName emulator_property : String) (timeoutTicks : Nat)
    (msg : Option String) : AssertOutcome :=
  let message := match msg with
    | some m => m
    | none => default_assert_true_msg funcName emulator_property
  match wait_for_emulator_lambda
      (fun tick => wrapper func funcName message (backdoor_get tick)) timeoutTicks with
  | .ret none => .passed
  | .ret (some err) => .assertionError err
  | .raisesConnErr => .connExn
  | .raisesOther e => .otherExn e

/-- Number of wrapper evaluations (backdoor reads) performed by one
assertion call, counted by the same recursion as the polling loop.  -/
def assert_evalCount (backdoor_get : Nat → GetResult) (func : String → FuncResult)
    (funcName emulator_property : String) (timeoutTicks : Nat)
    (msg : Option String) : Nat :=
  let message := match msg with
    | some m => m
    | none => default_assert_true_msg funcName emulator_property
  wait_evalCount
    (fun tick => wrapper func funcName message (backdoor_get tick)) timeoutTicks

/-! ## Backdoor value conversion and `backdoor_set_on_device`
(emulator_launcher.py lines 678-702).  -/

/-- The `EmulatorValue` type alias `int | float | str | bool`
(emulator_launcher.py line 30).  A float is carried by its Python `str()`
rendering, since no claim depends on float arithmetic, only on which branch
of the conversion a float takes.  -/
inductive EmulatorValue : Type
  /-- A Python int.  -/
  | int (n : Int) : EmulatorValue
  /-- A Python float, carried by its `str()` rendering.  -/
  | float (text : String) : EmulatorValue
  /-- A Python str.  -/
  | str (s : String) : EmulatorValue
  /-- A Python bool.  -/
  | bool (b : Bool) : EmulatorValue
deriving DecidableEq

/-- Python `str(value)` on an `EmulatorValue`: decimal text for an int,
the carried rendering for a float, the string itself for a str, and
`True` / `False` for a bool.  -/
def pyStr : EmulatorValue → String
  | .int n => toString n
  | .float text => text
  | .str s => s
  | .bool b => if b then "True" else "False"

/-- Python `isinstance(value, str)` on an `EmulatorValue`.  -/
def isinstance_str : EmulatorValue → Bool
  | .str _ => true
  | _ => false

/-- The single quote character used by the conversion.  -/
def singleQuote : String :=
  "\x27"

/-- LewisLauncher._convert_to_string_for_backdoor (emulator_launcher.py
lines 678-688): a str is wrapped in single quotes, anything else is passed
through `str()` raw.  -/
def convert_to_string_for_backdoor (value : EmulatorValue) : String :=
  if isinstance_str value then singleQuote ++ pyStr value ++ singleQuote else pyStr value

/-- LewisLauncher.backdoor_set_on_device (emulator_launcher.py lines
690-702): the argument vector handed to `backdoor_command`.  -/
def lewis_backdoor_set_on_device (var : String) (value : EmulatorValue) : List String :=
  ["device", var, convert_to_string_for_backdoor value]

/-! ## The tracked connected flag and connect/disconnect backdoor calls
(emulator_launcher.py lines 776-796).

The observable state of one LewisLauncher for these calls is its tri-state
`_connected` flag (`None` until `_open` sets it) together with the list of
argument vectors it has handed to `backdoor_command` so far.  -/

/-- LewisLauncher state relevant to connect/disconnect: the tri-state
`_connected` flag and the log of issued backdoor command vectors.  -/
structure LewisState : Type where
  /-- The `_connected` field: `none` is Python None.  -/
  connected : Option Bool
  /-- Argument vectors passed to `backdoor_command`, oldest first.  -/
  commands : List (List String)
deriving DecidableEq

/-- Python truthiness of the tri-state flag: None and False are falsy.  -/
def pyTruthy : Option Bool → Bool
  | none => false
  | some b => b

/-- LewisLauncher.backdoor_emulator_disconnect_device (emulator_launcher.py
lines 776-786): issue `simulation disconnect_device` only when the flag is
truthy, then set the flag to False.  -/
def backdoor_emulator_disconnect_device (s : LewisState) : LewisState :=
  let s :=
    if pyTruthy s.connected then
      { s with commands := s.commands ++ [["simulation", "disconnect_device"]] }
    else s
  { s with connected := some false }

/-- LewisLauncher.backdoor_emulator_connect_device (emulator_launcher.py
lines 788-796): issue `simulation connect_device` only when the flag is
falsy, then set the flag to True.  -/
def backdoor_emulator_connect_device (s : LewisState) : LewisState :=
  let s :=
    if pyTruthy s.connected then s
    else { s with commands := s.commands ++ [["simulation", "connect_device"]] }
  { s with connected := some true }

/-! ## CommandLineEmulatorLauncher backdoor operations
(emulator_launcher.py lines 998-1019).

Every backdoor operation raises
`ValueError("Cannot use backdoor for an arbitrary command line launcher")`
unconditionally.  -/

/-- Result of a Python call that either returns or raises ValueError. -/
inductive PyResult (α : Type) : Type
  /-- The call returned this value.  -/
  | ok (value : α) : PyResult α
  /-- The call raised ValueError with this message.  -/
  | valueError (message : String) : PyResult α
deriving DecidableEq

/-- The ValueError message raised by every CommandLineEmulatorLauncher
backdoor operation.  -/
def cmdline_backdoor_error : String :=
  "Cannot use backdoor for an arbitrary command line launcher"

/-- CommandLineEmulatorLauncher.backdoor_get_from_device
(emulator_launcher.py lines 998-1001).  -/
def commandLine_backdoor_get_from_device (var : String) : PyResult String :=
  .valueError cmdline_backdoor_error

/-- CommandLineEmulatorLauncher.backdoor_set_on_device
(emulator_launcher.py lines 1003-1006).  -/
def commandLine_backdoor_set_on_device (var : String) (value : EmulatorValue) :
    PyResult Unit :=
  .valueError cmdline_backdoor_error

/-- CommandLineEmulatorLauncher.backdoor_emulator_disconnect_device
(emulator_launcher.py lines 1008-1011).  -/
def commandLine_backdoor_emulator_disconnect_device : PyResult Unit :=
  .valueError cmdline_backdoor_error

/-- CommandLineEmulatorLauncher.backdoor_emulator_connect_device
(emulator_launcher.py lines 1013-1014).  -/
def commandLine_backdoor_emulator_connect_device : PyResult Unit :=
  .valueError cmdline_backdoor_error

/-- CommandLineEmulatorLauncher.backdoor_run_function_on_device
(emulator_launcher.py lines 1016-1019).  -/
def commandLine_backdoor_run_function_on_device (function_name : String)
    (arguments : List EmulatorValue) : PyResult (List String) :=
  .valueError cmdline_backdoor_error

/-! ## `device_collection_launcher` (device_launcher.py lines 20-31).

`with ExitStack() as stack: for device in devices:
stack.enter_context(device)` — each member is entered in list order; a
member whose `__enter__` raises is not pushed on the stack and the stack
unwinds, closing every successfully entered member in reverse entry order,
then re-raising.  On success all members are closed in reverse order after
the body.  A member is modelled by its id and whether its open raises.  -/

/-- Observable lifecycle events of collection members.  -/
inductive Ev : Type
  /-- Member with this id was opened (its enter returned).  -/
  | opened (i : Nat) : Ev
  /-- Member with this id was closed (its exit ran).  -/
  | closed (i : Nat) : Ev
deriving DecidableEq

/-- The ExitStack loop of `device_collection_launcher`: `stack` holds the
ids of already-entered members, most recently entered first.  Returns the
event trace and whether the whole `with` block completed without error.  -/
def collTrace (devices : List (Nat × Bool)) (stack : List Nat) :
    List Ev × Except Unit Unit :=
  match devices with
  | [] => (stack.map Ev.closed, Except.ok ())
  | (i, openFails) :: rest =>
    if openFails then (stack.map Ev.closed, Except.error ())
    else
      let r := collTrace rest (i :: stack)
      (Ev.opened i :: r.1, r.2)

/-- `device_collection_launcher(devices)`: every device is entered in order
on an ExitStack; the trace records opens and closes, and the result records
whether an open raised.  -/
def device_collection_launcher (devices : List (Nat × Bool)) :
    List Ev × Except Unit Unit :=
  collTrace devices []

/-! ## Helper lemmas about the polling loop -/

/-- If every tick strictly before the fuel bound lets the loop continue,
the loop runs out of fuel and the call is decided by the final evaluation
after the loop.  -/
theorem waitLoop_no_early (f : Nat → LambdaResult) (fuel : Nat) :
    ∀ tick : Nat, (∀ t, tick ≤ t → t < tick + fuel → loopContinues (f t) = true) →
    waitLoop f tick fuel = finalEval (f (tick + fuel)) := by
  induction fuel with
  | zero => intro tick _; rfl
  | succ n ih =>
    intro tick h
    have h0 := h tick le_rfl (by omega)
    have step : ∀ t, tick + 1 ≤ t → t < (tick + 1) + n → loopContinues (f t) = true := by
      intro t h1 h2
      exact h t (by omega) (by omega)
    have harr : tick + 1 + n = tick + (n + 1) := by omega
    cases hf : f tick with
    | value v =>
      cases v with
      | none => simp [hf, loopContinues] at h0
      | some s =>
        calc waitLoop f tick (n + 1) = waitLoop f (tick + 1) n := by
              simp [waitLoop, hf]
          _ = finalEval (f (tick + 1 + n)) := ih (tick + 1) step
          _ = finalEval (f (tick + (n + 1))) := by rw [harr]
    | connErr =>
        calc waitLoop f tick (n + 1) = waitLoop f (tick + 1) n := by
              simp [waitLoop, hf]
          _ = finalEval (f (tick + 1 + n)) := ih (tick + 1) step
          _ = finalEval (f (tick + (n + 1))) := by rw [harr]
    | otherErr e => simp [hf, loopContinues] at h0

/-- Under the same hypothesis the loop evaluates the lambda at every tick of
the loop plus once after it: `fuel + 1` evaluations in total.  -/
theorem waitLoopEvals_no_early (f : Nat → LambdaResult) (fuel : Nat) :
    ∀ tick : Nat, (∀ t, tick ≤ t → t < tick + fuel → loopContinues (f t) = true) →
    waitLoopEvals f tick fuel = tick + fuel + 1 := by
  induction fuel with
  | zero => intro tick _; rfl
  | succ n ih =>
    intro tick h
    have h0 := h tick le_rfl (by omega)
    have step : ∀ t, tick + 1 ≤ t → t < (tick + 1) + n → loopContinues (f t) = true := by
      intro t h1 h2
      exact h t (by omega) (by omega)
    cases hf : f tick with
    | value v =>
      cases v with
      | none => simp [hf, loopContinues] at h0
      | some s =>
        calc waitLoopEvals f tick (n + 1) = waitLoopEvals f (tick + 1) n := by
              simp [waitLoopEvals, hf]
          _ = tick + 1 + n + 1 := ih (tick + 1) step
          _ = tick + (n + 1) + 1 := by omega
    | connErr =>
        calc waitLoopEvals f tick (n + 1) = waitLoopEvals f (tick + 1) n := by
              simp [waitLoopEvals, hf]
          _ = tick + 1 + n + 1 := ih (tick + 1) step
          _ = tick + (n + 1) + 1 := by omega
    | otherErr e => simp [hf, loopContinues] at h0

/-- If the loop keeps going up to some tick offset `k` strictly inside the
fuel bound and the evaluation at that tick returns None, the loop returns
None from inside the loop (early success).  -/
theorem waitLoop_success_at (f : Nat → LambdaResult) (k : Nat) :
    ∀ tick fuel : Nat, k < fuel →
    (∀ t, tick ≤ t → t < tick + k → loopContinues (f t) = true) →
    f (tick + k) = LambdaResult.value none →
    waitLoop f tick fuel = WaitResult.ret none := by
  induction k with
  | zero =>
    intro tick fuel hk _ hsucc
    cases fuel with
    | zero => omega
    | succ n => simp [waitLoop, show f tick = LambdaResult.value none from hsucc]
  | succ m ih =>
    intro tick fuel hk hcont hsucc
    cases fuel with
    | zero => omega
    | succ n =>
      have h0 := hcont tick le_rfl (by omega)
      have hshift : tick + 1 + m = tick + (m + 1) := by omega
      have hstep : ∀ t, tick + 1 ≤ t → t < tick + 1 + m → loopContinues (f t) = true := by
        intro t h1 h2
        exact hcont t (by omega) (by omega)
      cases hf : f tick with
      | value v =>
        cases v with
        | none => simp [hf, loopContinues] at h0
        | some s =>
          calc waitLoop f tick (n + 1) = waitLoop f (tick + 1) n := by
                simp [waitLoop, hf]
            _ = WaitResult.ret none :=
                ih (tick + 1) n (by omega) hstep (by rw [hshift]; exact hsucc)
      | connErr =>
          calc waitLoop f tick (n + 1) = waitLoop f (tick + 1) n := by
                simp [waitLoop, hf]
            _ = WaitResult.ret none :=
                ih (tick + 1) n (by omega) hstep (by rw [hshift]; exact hsucc)
      | otherErr e => simp [hf, loopContinues] at h0

/-! ## Helper lemmas about the registry -/

/-- Dict assignment makes the key map to the assigned value.  -/
theorem registryGet_add_same (reg : Registry) (name : String) (b : Nat) :
    registryGet (add_emulator reg name b) name = some b := by
  induction reg with
  | nil => simp [add_emulator, registryGet]
  | cons p rest ih =>
    obtain ⟨k, v⟩ := p
    by_cases hk : k = name
    · subst hk
      simp [add_emulator, registryGet]
    · simp [add_emulator, registryGet, hk, ih]

/-- Assigning to a key that is already bound replaces the binding in place
and does not grow the dict.  -/
theorem add_emulator_length_of_present (reg : Registry) (name : String) (b : Nat)
    (h : registryGet reg name ≠ none) :
    (add_emulator reg name b).length = reg.length := by
  induction reg with
  | nil => simp [registryGet] at h
  | cons p rest ih =>
    obtain ⟨k, v⟩ := p
    by_cases hk : k = name
    · subst hk
      simp [add_emulator]
    · simp [registryGet, hk] at h
      simp [add_emulator, hk, ih h]

/-- Assigning to an absent key appends a fresh binding at the end.  -/
theorem add_emulator_absent (reg : Registry) (name : String) (l : Nat)
    (h : registryGet reg name = none) :
    add_emulator reg name l = reg ++ [(name, l)] := by
  induction reg with
  | nil => simp [add_emulator]
  | cons p rest ih =>
    obtain ⟨k, v⟩ := p
    by_cases hk : k = name
    · subst hk
      simp [registryGet] at h
    · simp [registryGet, hk] at h
      simp [add_emulator, hk, ih h]

/-- Deleting a key that occurs only as the final appended binding restores
the original dict.  -/
theorem remove_emulator_append_absent (reg : Registry) (name : String) (l : Nat)
    (h : registryGet reg name = none) :
    remove_emulator (reg ++ [(name, l)]) name = reg := by
  induction reg with
  | nil => simp [remove_emulator]
  | cons p rest ih =>
    obtain ⟨k, v⟩ := p
    by_cases hk : k = name
    · subst hk
      simp [registryGet] at h
    · simp [registryGet, hk] at h
      simp [remove_emulator, hk, ih h]

/-! ## Helper lemma about the collection launcher -/

/-- Unwinding of the ExitStack loop when the open of the member after `pre`
raises: every member of `pre` is opened in order, then closed in reverse
order together with whatever was already on the stack, and the error
propagates.  Nothing after the failing member is touched.  -/
theorem collTrace_open_fail (pre : List (Nat × Bool)) (post : List (Nat × Bool)) (j : Nat) :
    ∀ stack : List Nat, (∀ p ∈ pre, p.2 = false) →
    collTrace (pre ++ (j, true) :: post) stack =
      ((pre.map fun p => Ev.opened p.1) ++
        (((pre.map Prod.fst).reverse ++ stack).map Ev.closed),
       Except.error ()) := by
  induction pre with
  | nil => intro stack _; simp [collTrace]
  | cons p rest ih =>
    intro stack hpre
    obtain ⟨i, b⟩ := p
    have hb : b = false := hpre (i, b) (List.mem_cons_self _ _)
    subst hb
    have hrest : ∀ q ∈ rest, q.2 = false := fun q hq => hpre q (List.mem_cons_of_mem _ hq)
    have hih := ih (i :: stack) hrest
    have hstep : collTrace (((i, false) : Nat × Bool) :: (rest ++ (j, true) :: post)) stack
        = (Ev.opened i :: (collTrace (rest ++ (j, true) :: post) (i :: stack)).1,
           (collTrace (rest ++ (j, true) :: post) (i :: stack)).2) := rfl
    rw [List.cons_append, hstep, hih]
    simp [List.append_assoc]

/-! ## Claim theorems -/

/-- Claim C2: when the polling loop of `_wait_for_emulator_lambda` exits
because elapsed time reached the timeout (no iteration returned None and no
uncaught exception escaped), one final evaluation is performed after the
loop and its outcome is what the call returns, so the primitive never
reports failure without having checked the current value at least once.  -/
theorem C2_timeout_final_evaluation_decides (f : Nat → LambdaResult) (T : Nat)
    (h : ∀ t, t < T → loopContinues (f t) = true) :
    wait_for_emulator_lambda f T = finalEval (f T) := by
  have h1 := waitLoop_no_early f T 0 (fun t _ h2 => h t (by omega))
  rw [Nat.zero_add] at h1
  exact h1

/-- Witness for C2 at a lambda that keeps returning a failure message for a
3-tick timeout: the call returns exactly the final evaluation.  -/
theorem C2_timeout_final_evaluation_decides_witness :
    (∀ t, t < 3 →
      loopContinues ((fun _ => LambdaResult.value (some "still wrong")) t) = true) ∧
    wait_for_emulator_lambda (fun _ => LambdaResult.value (some "still wrong")) 3 =
      finalEval ((fun _ => LambdaResult.value (some "still wrong")) 3) :=
  ⟨fun _ _ => rfl, C2_timeout_final_evaluation_decides _ 3 (fun _ _ => rfl)⟩

/-- Claim C10: the single evaluation performed after the timeout loop is
not guarded by the transient-unreachable handler: when the final evaluation
raises UnableToConnectToEmulatorException the exception propagates raw to
the caller, whereas the same exception raised during the loop is swallowed
and the wait carries on.  -/
theorem C10_final_unreachable_propagates_raw (f : Nat → LambdaResult) (T : Nat)
    (h : ∀ t, t < T → loopContinues (f t) = true)
    (hT : f T = LambdaResult.connErr) :
    wait_for_emulator_lambda f T = WaitResult.raisesConnErr ∧
    wait_for_emulator_lambda
        (fun t => if t < T then LambdaResult.connErr else LambdaResult.value none) T =
      WaitResult.ret none := by
  constructor
  · have h1 := waitLoop_no_early f T 0 (fun t _ h2 => h t (by omega))
    rw [Nat.zero_add] at h1
    show waitLoop f 0 T = WaitResult.raisesConnErr
    rw [h1, hT]
    rfl
  · have h2 := waitLoop_no_early
      (fun t => if t < T then LambdaResult.connErr else LambdaResult.value none) T 0 (by
        intro t _ hlt
        have ht : t < T := by omega
        simp [ht, loopContinues])
    rw [Nat.zero_add] at h2
    show waitLoop
      (fun t => if t < T then LambdaResult.connErr else LambdaResult.value none) 0 T =
      WaitResult.ret none
    rw [h2]
    simp [finalEval]

/-- Witness for C10 at a lambda that raises
UnableToConnectToEmulatorException at every tick with a 2-tick timeout.  -/
theorem C10_final_unreachable_propagates_raw_witness :
    ((∀ t, t < 2 → loopContinues ((fun _ => LambdaResult.connErr) t) = true) ∧
      (fun _ => LambdaResult.connErr) 2 = LambdaResult.connErr) ∧
    (wait_for_emulator_lambda (fun _ => LambdaResult.connErr) 2 =
        WaitResult.raisesConnErr ∧
      wait_for_emulator_lambda
          (fun t => if t < 2 then LambdaResult.connErr else LambdaResult.value none) 2 =
        WaitResult.ret none) :=
  ⟨⟨fun _ _ => rfl, rfl⟩,
    C10_final_unreachable_propagates_raw _ 2 (fun _ _ => rfl) rfl⟩

/-- Claim C3: when the backdoor read raises the transient
UnableToConnectToEmulatorException on the first K polls and from poll K on
returns a value for which the predicate returns True, with K strictly less
than the timeout tick count T, the whole assertion succeeds: the transient
failures are swallowed inside the loop and never surface.  -/
theorem C3_transient_unreachable_swallowed
    (backdoor_get : Nat → GetResult) (func : String → FuncResult)
    (v : Nat → String) (funcName prop : String) (msg : Option String)
    (K T : Nat) (hKT : K < T)
    (hconn : ∀ t, t < K → backdoor_get t = GetResult.connErr)
    (hafter : ∀ t, K ≤ t → backdoor_get t = GetResult.val (v t) ∧
      func (v t) = FuncResult.ret true) :
    assert_that_emulator_value_causes_func_to_return_true backdoor_get func
      funcName prop T msg = AssertOutcome.passed := by
  have hw : ∀ message : String,
      wait_for_emulator_lambda
        (fun tick => wrapper func funcName message (backdoor_get tick)) T =
      WaitResult.ret none := by
    intro message
    show waitLoop
      (fun tick => wrapper func funcName message (backdoor_get tick)) 0 T =
      WaitResult.ret none
    apply waitLoop_success_at _ K 0 T hKT
    · intro t _ h2
      have hc := hconn t (by omega)
      simp [wrapper, hc, loopContinues]
    · have h := hafter K le_rfl
      show wrapper func funcName message (backdoor_get (0 + K)) = LambdaResult.value none
      rw [Nat.zero_add]
      simp [wrapper, h.1, h.2]
  unfold assert_that_emulator_value_causes_func_to_return_true
  cases msg with
  | none => simp [hw]
  | some m => simp [hw]

/-- Witness for C3: the backdoor is unreachable for the first 2 polls and
then returns a value the predicate accepts, with a 6-tick timeout.  -/
theorem C3_transient_unreachable_swallowed_witness :
    (2 < 6 ∧
      (∀ t, t < 2 →
        (fun tick => if tick < 2 then GetResult.connErr else GetResult.val "7") t =
          GetResult.connErr) ∧
      (∀ t, 2 ≤ t →
        (fun tick => if tick < 2 then GetResult.connErr else GetResult.val "7") t =
            GetResult.val ((fun _ => "7") t) ∧
          (fun _ => FuncResult.ret true) ((fun _ => "7") t) = FuncResult.ret true)) ∧
    assert_that_emulator_value_causes_func_to_return_true
        (fun tick => if tick < 2 then GetResult.connErr else GetResult.val "7")
        (fun _ => FuncResult.ret true) "check" "temperature" 6 none =
      AssertOutcome.passed :=
  ⟨⟨by omega,
    fun t ht => by simp [ht],
    fun t ht => ⟨by simp [Nat.not_lt.mpr ht], rfl⟩⟩,
    C3_transient_unreachable_swallowed
      (fun tick => if tick < 2 then GetResult.connErr else GetResult.val "7")
      (fun _ => FuncResult.ret true) (fun _ => "7") "check" "temperature" none 2 6
      (by omega)
      (fun t ht => by simp [ht])
      (fun t ht => ⟨by simp [Nat.not_lt.mpr ht], rfl⟩)⟩

/-- Claim C1: when the predicate handed to
`assert_that_emulator_value_causes_func_to_return_true` raises an exception
every time it is evaluated, the exception is caught and converted into the
descriptive failure message (naming the function, the last value and the
exception class), the wait keeps looping until the timeout elapses — the
lambda is evaluated T + 1 times, never ending early — and only then is an
AssertionError carrying that message raised.  -/
theorem C1_predicate_exception_retried_until_timeout
    (backdoor_get : Nat → GetResult) (func : String → FuncResult)
    (v : Nat → String) (cls : Nat → String) (em : Nat → Option String)
    (funcName prop : String) (msg : Option String) (T : Nat)
    (hget : ∀ t, backdoor_get t = GetResult.val (v t))
    (hfunc : ∀ t, func (v t) = FuncResult.exn (cls t) (em t)) :
    assert_that_emulator_value_causes_func_to_return_true backdoor_get func
        funcName prop T msg =
      AssertOutcome.assertionError
        (predicate_exception_message funcName (v T) (cls T) (em T)) ∧
    assert_evalCount backdoor_get func funcName prop T msg = T + 1 := by
  have hf : ∀ (message : String) (t : Nat),
      wrapper func funcName message (backdoor_get t) =
        LambdaResult.value
          (some (predicate_exception_message funcName (v t) (cls t) (em t))) := by
    intro message t
    simp [wrapper, hget t, hfunc t]
  have hwait : ∀ message : String,
      wait_for_emulator_lambda
          (fun tick => wrapper func funcName message (backdoor_get tick)) T =
        WaitResult.ret
          (some (predicate_exception_message funcName (v T) (cls T) (em T))) := by
    intro message
    have h1 := waitLoop_no_early
      (fun tick => wrapper func funcName message (backdoor_get tick)) T 0
      (by intro t _ h2; simp [hf message t, loopContinues])
    rw [Nat.zero_add] at h1
    show waitLoop (fun tick => wrapper func funcName message (backdoor_get tick)) 0 T =
      WaitResult.ret
        (some (predicate_exception_message funcName (v T) (cls T) (em T)))
    rw [h1]
    show finalEval (wrapper func funcName message (backdoor_get T)) = _
    rw [hf message T]
    rfl
  have hcount : ∀ message : String,
      wait_evalCount
          (fun tick => wrapper func funcName message (backdoor_get tick)) T = T + 1 := by
    intro message
    have h1 := waitLoopEvals_no_early
      (fun tick => wrapper func funcName message (backdoor_get tick)) T 0
      (by intro t _ h2; simp [hf message t, loopContinues])
    rw [Nat.zero_add] at h1
    exact h1
  constructor
  · unfold assert_that_emulator_value_causes_func_to_return_true
    cases msg with
    | none => simp [hwait]
    | some m => simp [hwait]
  · unfold assert_evalCount
    cases msg with
    | none => simp [hcount]
    | some m => simp [hcount]

/-- Witness for C1: a predicate that always raises TypeError against a
backdoor value of 12, with a 3-tick timeout: the assertion raises an
AssertionError carrying the formatted exception message built from the last
value, after 4 evaluations.  -/
theorem C1_predicate_exception_retried_until_timeout_witness :
    ((∀ t : Nat, (fun _ : Nat => GetResult.val "12") t =
        GetResult.val ((fun _ : Nat => "12") t)) ∧
      (∀ t : Nat, (fun _ : String => FuncResult.exn "TypeError" none)
          ((fun _ : Nat => "12") t) =
        FuncResult.exn ((fun _ : Nat => "TypeError") t)
          ((fun _ : Nat => (none : Option String)) t))) ∧
    (assert_that_emulator_value_causes_func_to_return_true (fun _ => GetResult.val "12")
        (fun _ => FuncResult.exn "TypeError" none) "check" "temperature" 3 none =
      AssertOutcome.assertionError
        (predicate_exception_message "check" "12" "TypeError" none) ∧
    assert_evalCount (fun _ => GetResult.val "12")
        (fun _ => FuncResult.exn "TypeError" none) "check" "temperature" 3 none = 3 + 1) :=
  ⟨⟨fun _ => rfl, fun _ => rfl⟩,
    C1_predicate_exception_retried_until_timeout (fun _ => GetResult.val "12")
      (fun _ => FuncResult.exn "TypeError" none) (fun _ => "12") (fun _ => "TypeError")
      (fun _ => none) "check" "temperature" none 3 (fun _ => rfl) (fun _ => rfl)⟩

/-- Claim C4 counterexample: with launcher 1 registered under the key, a
second open of launcher 2 under the same key silently replaces the earlier
entry — the registry now maps the key to launcher 2 and the original entry
is gone, so the claimed no-overwrite invariant is false.  -/
theorem C4_counterexample :
    registryGet [("julabo", 1)] "julabo" = some 1 ∧
    emulatorLauncher_enter [("julabo", 1)] "julabo" 2 = [("julabo", 2)] ∧
    registryGet (emulatorLauncher_enter [("julabo", 1)] "julabo" 2) "julabo" ≠ some 1 := by
  decide

/-- Claim C4 (amended): opening a second launcher whose emulator_id equals
a key already present in the EmulatorRegister does silently overwrite the
earlier entry: afterwards the key maps to the new launcher, the registry
size is unchanged, and the earlier launcher is no longer reachable.  -/
theorem C4_amended_second_open_overwrites (reg : Registry) (name : String) (a b : Nat)
    (h : registryGet reg name = some a) :
    registryGet (emulatorLauncher_enter reg name b) name = some b ∧
    (emulatorLauncher_enter reg name b).length = reg.length := by
  refine ⟨registryGet_add_same reg name b, ?_⟩
  exact add_emulator_length_of_present reg name b (by simp [h])

/-- Witness for the amended C4 at a one-entry registry.  -/
theorem C4_amended_second_open_overwrites_witness :
    registryGet [("julabo", 1)] "julabo" = some 1 ∧
    (registryGet (emulatorLauncher_enter [("julabo", 1)] "julabo" 2) "julabo" = some 2 ∧
      (emulatorLauncher_enter [("julabo", 1)] "julabo" 2).length =
        ([("julabo", 1)] : Registry).length) :=
  ⟨by decide, C4_amended_second_open_overwrites [("julabo", 1)] "julabo" 1 2 (by decide)⟩

/-- Claim C5 counterexample: for the LewisLauncher of lewis_launcher.py the
open/close round trip does not leave the register without an entry for the
key — __exit__ only calls _close() and never deregisters, so the entry
added by __enter__ is still present afterwards.  -/
theorem C5_counterexample :
    registryGet (lewisLauncher_exit (lewisLauncher_enter [] "julabo" 1)) "julabo" ≠
      none := by
  decide

/-- Claim C5 (amended): for launchers of the EmulatorLauncher hierarchy in
emulator_launcher.py, whose __exit__ deregisters, opening then closing
leaves the EmulatorRegister with no entry under the key and — when the key
was absent before the open — restores the registry state exactly; the
LewisLauncher of lewis_launcher.py does not deregister on exit, so its
entry remains in its register.  -/
theorem C5_amended_roundtrip (reg : Registry) (name : String) (l : Nat)
    (h : registryGet reg name = none) :
    emulatorLauncher_exit (emulatorLauncher_enter reg name l) name = reg ∧
    registryGet (emulatorLauncher_exit (emulatorLauncher_enter reg name l) name) name =
      none ∧
    lewisLauncher_exit (lewisLauncher_enter reg name l) = lewisLauncher_enter reg name l := by
  refine ⟨?_, ?_, rfl⟩
  · show remove_emulator (add_emulator reg name l) name = reg
    rw [add_emulator_absent reg name l h]
    exact remove_emulator_append_absent reg name l h
  · show registryGet (remove_emulator (add_emulator reg name l) name) name = none
    rw [add_emulator_absent reg name l h, remove_emulator_append_absent reg name l h]
    exact h

/-- Witness for the amended C5 at a registry holding one unrelated entry. -/
theorem C5_amended_roundtrip_witness :
    registryGet [("keithley", 5)] "julabo" = none ∧
    (emulatorLauncher_exit (emulatorLauncher_enter [("keithley", 5)] "julabo" 1) "julabo" =
        [("keithley", 5)] ∧
      registryGet
          (emulatorLauncher_exit (emulatorLauncher_enter [("keithley", 5)] "julabo" 1)
            "julabo") "julabo" = none ∧
      lewisLauncher_exit (lewisLauncher_enter [("keithley", 5)] "julabo" 1) =
        lewisLauncher_enter [("keithley", 5)] "julabo" 1) :=
  ⟨by decide, C5_amended_roundtrip [("keithley", 5)] "julabo" 1 (by decide)⟩

/-- Claim C6: for every backdoor_set_on_device call the transmitted
argument vector is `device <variable> <converted value>`, where a string
value is wrapped in single-quote characters and an int, float or bool value
is transmitted as its bare `str()` text.  -/
theorem C6_backdoor_set_value_conversion (var : String) :
    (∀ s, lewis_backdoor_set_on_device var (EmulatorValue.str s) =
      ["device", var, singleQuote ++ s ++ singleQuote]) ∧
    (∀ n : Int, lewis_backdoor_set_on_device var (EmulatorValue.int n) =
      ["device", var, toString n]) ∧
    (∀ b : Bool, lewis_backdoor_set_on_device var (EmulatorValue.bool b) =
      ["device", var, if b then "True" else "False"]) ∧
    (∀ text, lewis_backdoor_set_on_device var (EmulatorValue.float text) =
      ["device", var, text]) :=
  ⟨fun _ => rfl, fun _ => rfl, fun _ => rfl, fun _ => rfl⟩

/-- Claim C7: on a launcher whose tracked connected flag is True, two
consecutive backdoor_emulator_disconnect_device calls issue the underlying
`simulation disconnect_device` command exactly once — the second call sees
the flag already False and issues nothing — and symmetrically
backdoor_emulator_connect_device on the already-connected launcher issues
no command at all.  -/
theorem C7_disconnect_idempotent (s : LewisState)
    (h : s.connected = some true) :
    (backdoor_emulator_disconnect_device (backdoor_emulator_disconnect_device s)).commands =
      s.commands ++ [["simulation", "disconnect_device"]] ∧
    (backdoor_emulator_disconnect_device (backdoor_emulator_disconnect_device s)).connected =
      some false ∧
    (backdoor_emulator_connect_device s).commands = s.commands ∧
    (backdoor_emulator_connect_device s).connected = some true := by
  simp [backdoor_emulator_disconnect_device, backdoor_emulator_connect_device, pyTruthy, h]

/-- Witness for C7 at a freshly connected launcher with an empty command
log.  -/
theorem C7_disconnect_idempotent_witness :
    (LewisState.mk (some true) []).connected = some true ∧
    ((backdoor_emulator_disconnect_device
        (backdoor_emulator_disconnect_device (LewisState.mk (some true) []))).commands =
      (LewisState.mk (some true) []).commands ++ [["simulation", "disconnect_device"]] ∧
    (backdoor_emulator_disconnect_device
        (backdoor_emulator_disconnect_device (LewisState.mk (some true) []))).connected =
      some false ∧
    (backdoor_emulator_connect_device (LewisState.mk (some true) [])).commands =
      (LewisState.mk (some true) []).commands ∧
    (backdoor_emulator_connect_device (LewisState.mk (some true) [])).connected =
      some true) :=
  ⟨rfl, C7_disconnect_idempotent (LewisState.mk (some true) []) rfl⟩

/-- Claim C8: every backdoor operation of CommandLineEmulatorLauncher
raises ValueError with the capability-error message for every input, and
never returns a value (no default result and no silent no-op).  -/
theorem C8_commandline_backdoor_capability_error :
    (∀ var, commandLine_backdoor_get_from_device var =
      PyResult.valueError cmdline_backdoor_error) ∧
    (∀ var result, commandLine_backdoor_get_from_device var ≠ PyResult.ok result) ∧
    (∀ var value, commandLine_backdoor_set_on_device var value =
      PyResult.valueError cmdline_backdoor_error) ∧
    (∀ var value, commandLine_backdoor_set_on_device var value ≠ PyResult.ok ()) ∧
    commandLine_backdoor_emulator_disconnect_device =
      PyResult.valueError cmdline_backdoor_error ∧
    commandLine_backdoor_emulator_disconnect_device ≠ PyResult.ok () ∧
    commandLine_backdoor_emulator_connect_device =
      PyResult.valueError cmdline_backdoor_error ∧
    commandLine_backdoor_emulator_connect_device ≠ PyResult.ok () ∧
    (∀ fname args, commandLine_backdoor_run_function_on_device fname args =
      PyResult.valueError cmdline_backdoor_error) ∧
    (∀ fname args lines, commandLine_backdoor_run_function_on_device fname args ≠
      PyResult.ok lines) :=
  ⟨fun _ => rfl,
    fun _ _ h => PyResult.noConfusion h,
    fun _ _ => rfl,
    fun _ _ h => PyResult.noConfusion h,
    rfl,
    fun h => PyResult.noConfusion h,
    rfl,
    fun h => PyResult.noConfusion h,
    fun _ _ => rfl,
    fun _ _ _ h => PyResult.noConfusion h⟩

/-- Claim C9: for a device collection opened via device_collection_launcher
in which every member before some failing member opens successfully and
that member's open raises, the trace is exactly: the earlier members opened
in list order, then those same members closed in reverse of their open
order; no member at or after the failing one is opened or closed, and the
error propagates.  -/
theorem C9_failed_open_unwinds_in_reverse (pre post : List (Nat × Bool)) (j : Nat)
    (hpre : ∀ p ∈ pre, p.2 = false) :
    device_collection_launcher (pre ++ (j, true) :: post) =
      ((pre.map fun p => Ev.opened p.1) ++ ((pre.map Prod.fst).reverse.map Ev.closed),
       Except.error ()) := by
  have h := collTrace_open_fail pre post j [] hpre
  simpa [device_collection_launcher] using h

/-- Witness for C9: a 2-member collection whose second member fails to open
results in the first member being opened and then closed, and nothing else
happening.  -/
theorem C9_failed_open_unwinds_in_reverse_witness :
    (∀ p ∈ [((1 : Nat), false)], p.2 = false) ∧
    device_collection_launcher [(1, false), (2, true)] =
      ([Ev.opened 1, Ev.closed 1], Except.error ()) :=
  ⟨by decide, by
    have h := C9_failed_open_unwinds_in_reverse [(1, false)] [] 2 (by decide)
    simpa using h⟩
